import Mathlib

set_option maxRecDepth 4000

/-!
Shallow embedding of the TAIPOWER HVCS scraper (`src/main.py`) and proofs of
the specification claims about its captcha pipeline and login state machine.

Conventions of the embedding:
* PIL images are modelled as the free term algebra `PImg` over exactly the
  image operations the source applies; a variant is identified by the term
  that built it, which records scale / filter / contrast / threshold /
  polarity tags just as the spec's "Candidate Image" data model requires.
* The Tesseract OCR engine (`pytesseract.image_to_string`) is an external
  process; it is modelled as an oracle `rec : PImg → Nat → String` mapping a
  candidate image and a page-segmentation mode to the raw recognized text.
* Network I/O (`requests`) is modelled by per-attempt environments that give
  the response of each request the code can issue; the requests actually
  issued are accumulated in a trace so that claims about "no credential POST
  is sent" become statements about the trace.
* Floats appear only as the contrast multipliers 1.2 / 1.5 / 1.8; they are
  carried as tenths (12 / 15 / 18) since they are opaque tags, never
  computed with.
-/

/-- Free term algebra over the PIL operations used by `src/main.py`.
A term records exactly how a candidate bitmap was derived from the raw
captcha, so distinct preprocessing parameter combinations give distinct
terms. `contrast` carries the multiplier in tenths (12 = 1.2). -/
inductive PImg : Type where
  | src : Nat → PImg
  | convertL : PImg → PImg
  | resize : PImg → Nat → PImg
  | autocontrast : PImg → PImg
  | sharpen : PImg → PImg
  | unsharpMask : PImg → PImg
  | medianFilter : PImg → PImg
  | minFilter : PImg → PImg
  | maxFilter : PImg → PImg
  | contrast : PImg → Nat → PImg
  | pointThreshold : PImg → Nat → PImg
  | invert : PImg → PImg
  deriving DecidableEq, Repr

/-- Embedding of `_clean_text` (main.py:150-152): `re.sub(r"[^0-9A-Za-z]", "", text)` —
drop every character outside `[0-9A-Za-z]`.  `Char.isAlphanum` is exactly
ASCII `[0-9A-Za-z]`. -/
def _clean_text (text : String) : String :=
  ⟨text.data.filter (fun c => c.isAlphanum)⟩

/-- Embedding of `_variants` (main.py:155-180): the candidate-image sweep.  Imperative
`variants.append` order is reproduced by list concatenation order. -/
def _variants (img : PImg) : List PImg :=
  let gray := PImg.convertL img
  let scales := [2, 3, 4]
  let thresholds := [60, 75, 90, 105, 120, 135, 150, 165, 180, 195]
  let contrasts := [12, 15, 18]
  scales.flatMap (fun scale =>
    let resized := PImg.resize gray scale
    let base := PImg.autocontrast resized
    [base, PImg.sharpen base, PImg.unsharpMask base, PImg.medianFilter base,
     PImg.minFilter base, PImg.maxFilter base]
    ++ contrasts.flatMap (fun contrast =>
        let enhanced := PImg.contrast base contrast
        enhanced :: thresholds.flatMap (fun thresh =>
          let bw := PImg.pointThreshold enhanced thresh
          [bw, PImg.invert (PImg.convertL bw)])))

/-- The upscale factor a candidate was produced at (the claim's "scale tag"):
the factor of the outermost `resize` in the term, 0 if none. -/
def variantScale : PImg → Nat
  | .src _ => 0
  | .convertL i => variantScale i
  | .resize _ s => s
  | .autocontrast i => variantScale i
  | .sharpen i => variantScale i
  | .unsharpMask i => variantScale i
  | .medianFilter i => variantScale i
  | .minFilter i => variantScale i
  | .maxFilter i => variantScale i
  | .contrast i _ => variantScale i
  | .pointThreshold i _ => variantScale i
  | .invert i => variantScale i

/-- The binarization threshold a candidate was produced at, if any: the
threshold of the outermost `pointThreshold` applied after the upscale
(`resize`) step, so the tag describes the derivation performed by
`_variants` itself, not structure already present in its input. -/
def variantThreshold : PImg → Option Nat
  | .src _ => none
  | .convertL i => variantThreshold i
  | .resize _ _ => none
  | .autocontrast i => variantThreshold i
  | .sharpen i => variantThreshold i
  | .unsharpMask i => variantThreshold i
  | .medianFilter i => variantThreshold i
  | .minFilter i => variantThreshold i
  | .maxFilter i => variantThreshold i
  | .contrast i _ => variantThreshold i
  | .pointThreshold _ t => some t
  | .invert i => variantThreshold i

/-- Substring containment, modelling Python's `needle in haystack`. -/
def strContains (needle hay : String) : Bool :=
  decide (needle.data <:+: hay.data)

/-! ## Local OCR solver (`ocr_captcha`, main.py:240-253) -/

/-- The four Tesseract configurations of `ocr_captcha` (main.py:241-246), in
source order, identified by their `--psm` page-segmentation mode: 8 = single
word, 7 = single line, 6 = single block, 10 = single character.  All share
the same alphanumeric `tessedit_char_whitelist`. -/
def ocrConfigs : List Nat := [8, 7, 6, 10]

/-- The acceptance step shared by `ocr_captcha` (main.py:250-252) and
`solve_captcha_2captcha` (main.py:230-233): clean the raw engine text, accept
it exactly when the cleaned string has length 4. -/
def acceptClean (text : String) : Option String :=
  let cleaned := _clean_text text
  if cleaned.length = 4 then some cleaned else none

/-- Inner loop of `ocr_captcha` (main.py:248-252): try each config on one
variant, returning the first accepted cleaned text. -/
def findInConfigs (rec : PImg → Nat → String) (variant : PImg) :
    List Nat → Option String
  | [] => none
  | c :: rest =>
    match acceptClean (rec variant c) with
    | some code => some code
    | none => findInConfigs rec variant rest

/-- Outer loop of `ocr_captcha` (main.py:247-252): walk the variants in
generation order, trying every config on each. -/
def findInVariants (rec : PImg → Nat → String) :
    List PImg → Option String
  | [] => none
  | v :: rest =>
    match findInConfigs rec v ocrConfigs with
    | some code => some code
    | none => findInVariants rec rest

/-- Embedding of `ocr_captcha` (main.py:240-253), with the Tesseract engine abstracted as
the oracle `rec`.  Returns `""` when every variant/config pair fails. -/
def ocr_captcha (rec : PImg → Nat → String) (img : PImg) : String :=
  (findInVariants rec (_variants img)).getD ""

/-- The (variant, config) evaluation order of `ocr_captcha`: variants in
generation order, each paired with the four configs in source order. -/
def ocrPairs (img : PImg) : List (PImg × Nat) :=
  (_variants img).flatMap (fun v => ocrConfigs.map (fun c => (v, c)))

/-- The first accepted pair of an explicit (variant, config) list —
the reference functional the nested loops of `ocr_captcha` compute. -/
def firstAccepted (rec : PImg → Nat → String) :
    List (PImg × Nat) → Option String
  | [] => none
  | p :: rest =>
    match acceptClean (rec p.1 p.2) with
    | some code => some code
    | none => firstAccepted rec rest

/-! ## Remote solver (`solve_captcha_2captcha`, main.py:182-238) -/

/-- Parsed JSON of the 2captcha upload / poll endpoints: a numeric `status`
and a `request` string (job id, code, or error token). -/
structure TwoCaptchaResp where
  status : Nat
  request : String
  deriving DecidableEq, Repr

/-- The default `timeout` argument of `solve_captcha_2captcha`. -/
def twoCaptchaTimeout : Nat := 120

/-- Polling loop of `solve_captcha_2captcha` (main.py:213-238).  The `while
time.time() - start < timeout` guard is modelled with requests taking no
time, so after `k` iterations (each starting with `time.sleep(5)`) the
elapsed time is `5 * k`; `polls k` is the parsed JSON of the k-th poll.
On `status == 1` the text is cleaned and returned only if it has length 4,
else `""` is returned; a poll that is neither success nor
`CAPCHA_NOT_READY` raises; running out the clock raises the timeout error.
The structural `fuel` only bounds recursion depth: a fuel of `timeout`
suffices, since each iteration adds 5 to the elapsed time (see
`pollLoopF_fuel_irrelevant`). -/
def pollLoopF (polls : Nat → TwoCaptchaResp) (timeout : Nat) :
    Nat → Nat → Except String String
  | _, 0 => .error "2Captcha timeout"
  | k, fuel + 1 =>
    if 5 * k < timeout then
      let d := polls k
      if d.status = 1 then
        match acceptClean d.request with
        | some code => .ok code
        | none => .ok ""
      else if d.request ≠ "CAPCHA_NOT_READY" then
        .error "2Captcha error"
      else
        pollLoopF polls timeout (k + 1) fuel
    else
      .error "2Captcha timeout"

/-- The polling loop started at elapsed time 0 with adequate fuel (see
`pollLoopF_fuel_irrelevant`: the fuel parameter is an artifact of the
embedding, not a semantic bound). -/
def pollLoop (polls : Nat → TwoCaptchaResp) (timeout : Nat) :
    Except String String :=
  pollLoopF polls timeout 0 timeout

/-- Outcome of one call to `solve_captcha_2captcha`: the body submitted to
the upload endpoint (if the upload was reached) and the result or raised
error. -/
structure TwoCaptchaRun where
  uploadedBody : Option String
  result : Except String String
  deriving Repr

/-- Embedding of `solve_captcha_2captcha` (main.py:182-238) with base64 encoding
abstracted as `b64` and network responses as `upload` / `polls`.  The body
submitted is the base64 encoding of the raw image passed in — the variants
pipeline is never applied here. -/
def solve_captcha_2captcha (apiKey : String) (b64 : PImg → String)
    (img : PImg) (upload : TwoCaptchaResp) (polls : Nat → TwoCaptchaResp)
    (timeout : Nat) : TwoCaptchaRun :=
  if apiKey = "" then
    ⟨none, .error "2Captcha API key not set"⟩
  else
    let body := b64 img
    if upload.status ≠ 1 then
      ⟨some body, .error "2Captcha upload failed"⟩
    else
      ⟨some body, pollLoop polls timeout⟩

/-! ## Login state machine (`login_and_get_dashboard`, main.py:256-370)

Requests issued against the portal session are accumulated in a `Req`
trace; each attempt's network responses and the results of the
BeautifulSoup extractions (`parse_login_form`, `extract_token` — HTML
parsing is not embeddable, so their outcomes on the fetched page are
environment inputs) are provided by an `AttemptEnv`. -/

/-- One request the login flow can issue on the portal session.
`getLogin i` is the GET of the i-th login-page URL (0 = `LOGIN_PAGE_URL`,
1 = the hard-coded secondary URL); `postCredentials` records the captcha
code put in the submitted payload. -/
inductive Req where
  | getLogin : Nat → Req
  | getCaptcha : Req
  | postCredentials : String → Req
  | getRedirect : Req
  | postMeterList : Req
  | postMeterSwitch : Req
  | getMeterSwitch : Req
  | getDashboard : Req
  deriving DecidableEq, Repr

/-- An exception ending the run: a propagated `requests.RequestException`
or a `LoginError` with its message. -/
inductive RunExc where
  | reqExc : RunExc
  | loginErr : String → RunExc
  deriving DecidableEq, Repr

/-- Response to a page GET: `exc` models a raised `RequestException`
(network failure or an HTTP error status via `raise_for_status`). -/
structure PageResp where
  exc : Bool
  text : String
  deriving Repr

/-- The `data` block of the JSON login response (main.py:326-330):
`Status`, `Message`, `refreshChptcha`, `Url`.  `status : Option Bool`
models the Python truthiness cases used (`is False` / truthy / absent). -/
structure LoginJson where
  status : Option Bool
  message : Option String
  refresh : Bool
  url : Option String
  deriving Repr

/-- The empty `data_block` that results from a JSON parse `ValueError` or a
missing/non-dict `data` entry (main.py:323-326). -/
def LoginJson.empty : LoginJson := ⟨none, none, false, none⟩

/-- Response to the credential POST. `parsed = none` models a body whose
JSON fails to parse (or lacks a dict `data`), collapsing to
`LoginJson.empty` exactly as the source's fallbacks do. -/
structure PostResp where
  statusCode : Nat
  isJson : Bool
  parsed : Option LoginJson
  deriving Repr

/-- Python truthiness of an optional string (`if status and redirect_url`). -/
def truthyStr : Option String → Bool
  | some s => !(s == "")
  | none => false

/-- Environment of one `select_meter_no` call.  `items` holds, per entry of
the payload's `data` list, `str(item["UserMeter_GroupbyMeter"]["MeterNo"])`
when the item is a dict with truthy `UserMeter_GroupbyMeter` and truthy
`MeterNo`, and `none` otherwise (main.py:520-523); `payloadOk = false`
models a body that is not JSON even after the `new Date(...)` cleanup. -/
structure MeterEnv where
  listStatus : Nat
  payloadOk : Bool
  items : List (Option String)
  deriving Repr

/-- Embedding of `select_meter_no` (main.py:495-537): POST the meter list, require the
configured meter number among the account's meters, then switch context
with a POST followed by a GET against `UID_METER_URL`.  Errors are the
`LoginError` messages the source raises. -/
def select_meter_no (meter_no : String) (env : MeterEnv) :
    List Req × Except String Unit :=
  if meter_no = "" then ([], .ok ())
  else
    if env.listStatus ≥ 400 then
      ([.postMeterList], .error "Meter list request failed")
    else if !env.payloadOk then
      ([.postMeterList], .error "Meter list response is not JSON")
    else
      let meter_list := env.items.filterMap id
      if meter_no ∉ meter_list then
        ([.postMeterList],
         .error ("MeterNo " ++ meter_no ++ " not found in account list"))
      else
        ([.postMeterList, .postMeterSwitch, .getMeterSwitch], .ok ())

/-- Result type of a successful `parse_login_form` call (main.py:107-133): action URL,
hidden input fields, captcha image URL. -/
structure FormData where
  actionUrl : String
  fields : List (String × String)
  captchaUrl : String
  deriving Repr

/-- Everything one attempt can observe: the two login-page responses, the
BeautifulSoup extraction results on the fetched page, the captcha fetch,
the OCR / 2captcha oracles, the manual input (`none` = `EOFError`), the
credential-POST response, the meter environment, and the dashboard body. -/
structure AttemptEnv where
  page1 : PageResp
  page2 : PageResp
  formParse : Except String FormData
  tokenParse : Except String String
  captchaExc : Bool
  captchaImg : PImg
  recognize : PImg → Nat → String
  b64 : PImg → String
  upload : TwoCaptchaResp
  polls : Nat → TwoCaptchaResp
  manualInput : Option String
  postResp : PostResp
  meterEnv : MeterEnv
  dashText : String

/-- The anti-forgery marker looked for on the login page (main.py:96). -/
def tokenMarker : String := "__RequestVerificationToken"

/-- Embedding of `get_login_page` (main.py:86-104): try the primary then the secondary
URL; a `RequestException` is remembered and the next URL tried; a page
without the token marker is skipped without recording an error; after the
loop the last exception is re-raised, else `LoginError` is raised. -/
def get_login_page (e : AttemptEnv) : List Req × Except RunExc String :=
  if e.page1.exc then
    if e.page2.exc then ([.getLogin 0, .getLogin 1], .error .reqExc)
    else if strContains tokenMarker e.page2.text then
      ([.getLogin 0, .getLogin 1], .ok e.page2.text)
    else ([.getLogin 0, .getLogin 1], .error .reqExc)
  else if strContains tokenMarker e.page1.text then
    ([.getLogin 0], .ok e.page1.text)
  else if e.page2.exc then ([.getLogin 0, .getLogin 1], .error .reqExc)
  else if strContains tokenMarker e.page2.text then
    ([.getLogin 0, .getLogin 1], .ok e.page2.text)
  else ([.getLogin 0, .getLogin 1],
        .error (.loginErr "Unable to load login page"))

/-- Process-wide configuration constants read at startup (main.py:53-79). -/
structure Config where
  use2captcha : Bool
  apiKey : String
  captchaManual : Bool
  username : String
  password : String
  meterNo : String
  maxAttempts : Nat

/-- How one iteration of the attempt loop ends: `return dash.text`, advance
to the next attempt (any `continue` or the fall-through at the bottom of
the loop body), or an uncaught exception. -/
inductive AttemptStep where
  | success : String → AttemptStep
  | retry : AttemptStep
  | raised : RunExc → AttemptStep
  deriving DecidableEq, Repr

/-- Captcha code resolution of one attempt (main.py:272-294).  `none` means
the attempt ran `continue` before building the payload.
* `USE_2CAPTCHA`: any exception from the remote solver falls back to local
  OCR, and **no length check follows** (main.py:272-277).
* manual entry: a 4-character stripped input replaces the OCR result;
  anything else (or `EOFError`) skips the attempt (main.py:282-290).
* otherwise: `if len(captcha_code) != 4:` guards only the log line; the
  `continue` under it sits at the **outer** indentation level (main.py:294),
  so it runs unconditionally and the OCR result is discarded whatever its
  length. -/
def resolveCaptcha (cfg : Config) (e : AttemptEnv) : Option String :=
  if cfg.use2captcha then
    some (match (solve_captcha_2captcha cfg.apiKey e.b64
        e.captchaImg e.upload e.polls twoCaptchaTimeout).result with
      | .ok code => code
      | .error _ => ocr_captcha e.recognize e.captchaImg)
  else
    let _code := ocr_captcha e.recognize e.captchaImg
    if cfg.captchaManual then
      match e.manualInput with
      | some manual =>
        if manual.trim.length = 4 then some manual.trim else none
      | none => none
    else
      none

/-- Interpretation of the credential-POST response (main.py:320-345):
requests issued while interpreting (the redirect GET, when a truthy status
comes with a truthy redirect URL) and the resulting `login_ok` flag. -/
def interpretResult (resp : PostResp) : List Req × Bool :=
  if resp.isJson then
    let db := resp.parsed.getD LoginJson.empty
    if db.status = some true ∧ truthyStr db.url then
      ([.getRedirect], true)
    else if db.status = some true then ([], true)
    else ([], false)
  else ([], resp.statusCode < 400)

/-- Meter-selection step of one attempt (main.py:347-353): only runs when
`login_ok` and a meter number is configured; a `LoginError` from
`select_meter_no` is caught and flagged (`false` = retry the attempt). -/
def meterStep (cfg : Config) (e : AttemptEnv) (login_ok : Bool) :
    List Req × Bool :=
  if login_ok && !(cfg.meterNo == "") then
    match select_meter_no cfg.meterNo e.meterEnv with
    | (rs, .ok _) => (rs, true)
    | (rs, .error _) => (rs, false)
  else ([], true)

/-- One iteration of the attempt loop (main.py:261-368), returning the
requests it issued and how it ended. -/
def runAttempt (cfg : Config) (e : AttemptEnv) : List Req × AttemptStep :=
  let (reqs0, page) := get_login_page e
  match page with
  | .error exc => (reqs0, .raised exc)
  | .ok _html =>
    match e.formParse with
    | .error msg => (reqs0, .raised (.loginErr msg))
    | .ok _form =>
      match e.tokenParse with
      | .error msg => (reqs0, .raised (.loginErr msg))
      | .ok _token =>
        let reqs1 := reqs0 ++ [.getCaptcha]
        if e.captchaExc then (reqs1, .raised .reqExc)
        else
          match resolveCaptcha cfg e with
          | none => (reqs1, .retry)
          | some captcha_code =>
            let reqs2 := reqs1 ++ [.postCredentials captcha_code]
            let step6 := interpretResult e.postResp
            let meter := meterStep cfg e step6.2
            let reqs3 := reqs2 ++ step6.1 ++ meter.1
            if !meter.2 then (reqs3, .retry)
            else
              -- main.py:354-362: fetch the dashboard unconditionally and
              -- succeed only if the marker is present
              let reqs4 := reqs3 ++ [.getDashboard]
              if strContains "card_1" e.dashText then
                (reqs4, .success e.dashText)
              else (reqs4, .retry)

/-- The `for attempt in range(1, MAX_LOGIN_ATTEMPTS + 1)` loop
(main.py:260-370), structurally recursing on the attempts remaining;
falling off the loop raises the exhausted-attempts `LoginError`. -/
def loginLoop (cfg : Config) (envs : Nat → AttemptEnv) :
    Nat → Nat → List Req × Except RunExc String
  | _, 0 => ([], .error (.loginErr "Login failed after multiple attempts"))
  | attempt, remaining + 1 =>
    match runAttempt cfg (envs attempt) with
    | (reqs, .success dash) => (reqs, .ok dash)
    | (reqs, .raised exc) => (reqs, .error exc)
    | (reqs, .retry) =>
      let rest := loginLoop cfg envs (attempt + 1) remaining
      (reqs ++ rest.1, rest.2)

/-- Embedding of `login_and_get_dashboard` (main.py:256-370): guard the credentials,
then run the bounded attempt loop from attempt 1. -/
def login_and_get_dashboard (cfg : Config) (envs : Nat → AttemptEnv) :
    List Req × Except RunExc String :=
  if cfg.username = "" ∨ cfg.password = "" then
    ([], .error (.loginErr "TAIPOWER_USERNAME or TAIPOWER_PASSWORD not set"))
  else
    loginLoop cfg envs 1 cfg.maxAttempts

/-- Number of credential POSTs in a trace. -/
def countPosts (reqs : List Req) : Nat :=
  reqs.countP (fun r => match r with | .postCredentials _ => true | _ => false)

/-- Number of login-page GETs in a trace. -/
def countLoginGets (reqs : List Req) : Nat :=
  reqs.countP (fun r => match r with | .getLogin _ => true | _ => false)

/-! ## Concrete stub scenarios -/

/-- A first-URL login page carrying the anti-forgery marker. -/
def goodLoginPage : PageResp :=
  ⟨false, "<html>__RequestVerificationToken</html>"⟩

/-- A parsed login form as `parse_login_form` would deliver it. -/
def stubForm : FormData :=
  ⟨"https://service.taipower.com.tw/hvcs/SignOn/Login",
   [("__RequestVerificationToken", "tok")],
   "https://service.taipower.com.tw/hvcs/Other/Module/Chptcha"⟩

/-- The spec's end-to-end success scenario environment: valid form and
token on the first request, a stub recognizer that resolves the captcha to
`"Ab12"`, a JSON response with status `true` and no redirect URL, and a
dashboard containing the `card_1` marker.  The 2captcha stubs also resolve
to `"Ab12"` so the same environment serves either strategy. -/
def envAb12 : AttemptEnv where
  page1 := goodLoginPage
  page2 := ⟨true, ""⟩
  formParse := .ok stubForm
  tokenParse := .ok "tok"
  captchaExc := false
  captchaImg := .src 0
  recognize := fun _ _ => "Ab12"
  b64 := fun _ => "b64-raw-captcha"
  upload := ⟨1, "job1"⟩
  polls := fun _ => ⟨1, "Ab12"⟩
  manualInput := none
  postResp := ⟨200, true, some ⟨some true, none, false, none⟩⟩
  meterEnv := ⟨200, true, []⟩
  dashText := "<div class=card_1>dash</div>"

/-- Local-only automatic configuration: `USE_2CAPTCHA = False`,
`CAPTCHA_MANUAL = False`, no meter, 3 attempts. -/
def cfgLocalAuto : Config := ⟨false, "", false, "user", "pw", "", 3⟩

/-- Remote-with-local-fallback configuration, otherwise as `cfgLocalAuto`. -/
def cfgRemote : Config := ⟨true, "key", false, "user", "pw", "", 3⟩

/-- The first candidate image `_variants` generates from `src 0`. -/
def wFirstVariant : PImg := .autocontrast (.resize (.convertL (.src 0)) 2)

/-- A stub recognizer accepting only the very first (variant, profile)
pair. -/
def wRecA : PImg → Nat → String :=
  fun v c => if v = wFirstVariant ∧ c = 8 then "Ab12" else "zzz"

/-- A stub recognizer that agrees with `wRecA` on the first pair but would
accept every later pair with a different code — distinguishing a
short-circuiting solver from one that keeps scanning. -/
def wRecB : PImg → Nat → String :=
  fun v c => if v = wFirstVariant ∧ c = 8 then "Ab12" else "Zz99"

/-- Poll responses for the C7 witness: not ready twice, then success with
raw text `"By34"`. -/
def wPolls : Nat → TwoCaptchaResp :=
  fun j => if j < 2 then ⟨0, "CAPCHA_NOT_READY"⟩ else ⟨1, "By34"⟩

/-- The remote-configuration environment for the C2 counterexample: the
2captcha service reports success with unnormalizable text, so the solver
returns `""`; the credential POST is nonetheless submitted. -/
def envRemoteBad : AttemptEnv :=
  { envAb12 with
      polls := fun _ => ⟨1, "toolongtext"⟩
      postResp := ⟨200, true, some ⟨some false, none, false, none⟩⟩
      dashText := "<html>no marker</html>" }

/-- Meter environment for the C9 witness: the account owns meters 01 and
02. -/
def wMeterEnv : MeterEnv := ⟨200, true, [some "01", none, some "02"]⟩

/-- Environment whose recognizer always returns empty, for the C10
witness. -/
def envOcrEmpty : AttemptEnv := { envAb12 with recognize := fun _ _ => "" }

/-! ## Sanity checks -/

example (img : PImg) : (_variants img).length = 207 := rfl
example : _clean_text "a!b%2C?3" = "ab2C3" := by decide
example : strContains "abc" "xxabcyy" = true := by decide
example : strContains "abc" "xxabyy" = false := by decide
example :
    (solve_captcha_2captcha "k" (fun _ => "B64") (PImg.src 0) ⟨1, "job"⟩
      (fun _ => ⟨1, "a b 1 2 !"⟩) twoCaptchaTimeout).result = .ok "ab12" := rfl
example :
    (solve_captcha_2captcha "k" (fun _ => "B64") (PImg.src 0) ⟨1, "job"⟩
      (fun _ => ⟨0, "CAPCHA_NOT_READY"⟩) twoCaptchaTimeout).result =
      .error "2Captcha timeout" := rfl
example : ocr_captcha envAb12.recognize envAb12.captchaImg = "Ab12" := rfl
example : runAttempt cfgLocalAuto envAb12 =
    ([.getLogin 0, .getCaptcha], .retry) := rfl
example : runAttempt cfgRemote envAb12 =
    ([.getLogin 0, .getCaptcha, .postCredentials "Ab12", .getDashboard],
     .success "<div class=card_1>dash</div>") := rfl
example : (login_and_get_dashboard cfgLocalAuto (fun _ => envAb12)).2 =
    .error (.loginErr "Login failed after multiple attempts") := rfl

/-! ## Helper lemmas -/

/-- Fuel adequacy: any fuel making `5 * k + 5 * fuel ≥ timeout` (in
particular `fuel = timeout` at `k = 0`) gives the same answer, so the fuel
parameter of `pollLoopF` is an artifact of the embedding, not a semantic
bound. -/
theorem pollLoopF_fuel_irrelevant (polls : Nat → TwoCaptchaResp)
    (timeout : Nat) :
    ∀ fuel fuel' k, timeout ≤ 5 * k + 5 * fuel → timeout ≤ 5 * k + 5 * fuel' →
      pollLoopF polls timeout k fuel = pollLoopF polls timeout k fuel' := by
  intro fuel
  induction fuel with
  | zero =>
    intro fuel' k h _
    cases fuel' with
    | zero => rfl
    | succ n =>
      simp only [pollLoopF]
      rw [if_neg (by omega)]
  | succ n ih =>
    intro fuel' k h h'
    cases fuel' with
    | zero =>
      simp only [pollLoopF]
      rw [if_neg (by omega)]
    | succ m =>
      simp only [pollLoopF]
      by_cases hk : 5 * k < timeout
      · rw [if_pos hk, if_pos hk]
        split
        · rfl
        · split
          · rfl
          · exact ih m (k + 1) (by omega) (by omega)
      · rw [if_neg hk, if_neg hk]

theorem countPosts_append (a b : List Req) :
    countPosts (a ++ b) = countPosts a + countPosts b :=
  List.countP_append _ _ _

theorem acceptClean_some {t c : String} (h : acceptClean t = some c) :
    c = _clean_text t ∧ c.length = 4 := by
  simp only [acceptClean] at h
  split at h
  · exact ⟨(Option.some.inj h).symm, by
      rw [← Option.some.inj h]; assumption⟩
  · exact absurd h (by simp)

theorem clean_text_all_alnum (t : String) :
    ∀ ch ∈ (_clean_text t).data, ch.isAlphanum := by
  intro ch hch
  unfold _clean_text at hch
  exact (List.mem_filter.mp hch).2

theorem firstAccepted_append (rec : PImg → Nat → String)
    (l1 l2 : List (PImg × Nat)) :
    firstAccepted rec (l1 ++ l2) =
      match firstAccepted rec l1 with
      | some c => some c
      | none => firstAccepted rec l2 := by
  induction l1 with
  | nil => simp [firstAccepted]
  | cons p rest ih =>
    simp only [List.cons_append, firstAccepted]
    cases acceptClean (rec p.1 p.2) <;> simp [ih]

theorem findInConfigs_eq (rec : PImg → Nat → String) (v : PImg)
    (cs : List Nat) :
    findInConfigs rec v cs = firstAccepted rec (cs.map (fun c => (v, c))) := by
  induction cs with
  | nil => rfl
  | cons c rest ih =>
    simp only [findInConfigs, List.map_cons, firstAccepted]
    cases acceptClean (rec v c) <;> simp [ih]

theorem findInVariants_eq (rec : PImg → Nat → String) (vs : List PImg) :
    findInVariants rec vs =
      firstAccepted rec (vs.flatMap (fun v => ocrConfigs.map (fun c => (v, c)))) := by
  induction vs with
  | nil => rfl
  | cons v rest ih =>
    simp only [findInVariants, List.flatMap_cons, firstAccepted_append,
      findInConfigs_eq]
    cases firstAccepted rec (ocrConfigs.map (fun c => (v, c))) <;> simp [ih]

/-- The nested loops of `ocr_captcha` compute the first accepted result of
the flattened (variant, config) pair sequence. -/
theorem ocr_captcha_eq (rec : PImg → Nat → String) (img : PImg) :
    ocr_captcha rec img = (firstAccepted rec (ocrPairs img)).getD "" := by
  unfold ocr_captcha ocrPairs
  rw [findInVariants_eq]

theorem firstAccepted_some {rec : PImg → Nat → String}
    {ps : List (PImg × Nat)} {c : String}
    (h : firstAccepted rec ps = some c) :
    c.length = 4 ∧ ∀ ch ∈ c.data, ch.isAlphanum := by
  induction ps with
  | nil => exact absurd h (by simp [firstAccepted])
  | cons p rest ih =>
    unfold firstAccepted at h
    cases hp : acceptClean (rec p.1 p.2) with
    | some c' =>
      rw [hp] at h
      obtain ⟨hc, hlen⟩ := acceptClean_some hp
      obtain rfl : c' = c := Option.some.inj h
      subst hc
      exact ⟨hlen, clean_text_all_alnum _⟩
    | none => rw [hp] at h; exact ih h

/-- Short-circuit congruence: if some pair among the first `n` is accepted
under `rec`, and `rec'` agrees with `rec` on those first `n` pairs, the
first accepted result is the same — pairs ordered after the first match are
never consulted. -/
theorem firstAccepted_congr (rec rec' : PImg → Nat → String) :
    ∀ (ps : List (PImg × Nat)) (n : Nat),
      (∃ p ∈ ps.take n, (acceptClean (rec p.1 p.2)).isSome) →
      (∀ p ∈ ps.take n, rec' p.1 p.2 = rec p.1 p.2) →
      firstAccepted rec' ps = firstAccepted rec ps := by
  intro ps
  induction ps with
  | nil => intro n h _; simp at h
  | cons p rest ih =>
    intro n hex hag
    cases n with
    | zero => simp at hex
    | succ m =>
      simp only [List.take_succ_cons] at hex hag
      have hhead : rec' p.1 p.2 = rec p.1 p.2 := hag p (by simp)
      unfold firstAccepted
      rw [hhead]
      cases hp : acceptClean (rec p.1 p.2) with
      | some c => rfl
      | none =>
        have hex' : ∃ q ∈ rest.take m, (acceptClean (rec q.1 q.2)).isSome := by
          obtain ⟨q, hq, hqs⟩ := hex
          cases List.mem_cons.mp hq with
          | inl hqp => subst hqp; rw [hp] at hqs; simp at hqs
          | inr hqr => exact ⟨q, hqr, hqs⟩
        exact ih m hex' (fun q hq => hag q (List.mem_cons_of_mem _ hq))

/-! ## Claim theorems -/

/-- C4: the local-only solver `ocr_captcha` enumerates candidates in
generation order, trying the four profiles in the fixed order word (psm 8),
line (psm 7), block (psm 6), character (psm 10) on each; it returns the
first normalized 4-character result of this pair ordering and never
consults a pair ordered after that match (recognizers agreeing up to and
including the first match give the same answer); if every pair fails it
returns `""`; and every non-empty return has length 4 and only characters
in `[0-9A-Za-z]`. -/
theorem ocr_captcha_c4 (rec : PImg → Nat → String) (img : PImg) :
    ocr_captcha rec img = (firstAccepted rec (ocrPairs img)).getD "" ∧
    (firstAccepted rec (ocrPairs img) = none → ocr_captcha rec img = "") ∧
    (ocr_captcha rec img ≠ "" → (ocr_captcha rec img).length = 4 ∧
      ∀ ch ∈ (ocr_captcha rec img).data, ch.isAlphanum) ∧
    (∀ (rec' : PImg → Nat → String) (n : Nat),
      (∃ p ∈ (ocrPairs img).take n, (acceptClean (rec p.1 p.2)).isSome) →
      (∀ p ∈ (ocrPairs img).take n, rec' p.1 p.2 = rec p.1 p.2) →
      ocr_captcha rec' img = ocr_captcha rec img) := by
  refine ⟨ocr_captcha_eq rec img, ?_, ?_, ?_⟩
  · intro h; rw [ocr_captcha_eq, h]; rfl
  · intro hne
    rw [ocr_captcha_eq] at hne ⊢
    cases hfa : firstAccepted rec (ocrPairs img) with
    | none => rw [hfa] at hne; exact absurd rfl hne
    | some c =>
      simpa using firstAccepted_some hfa
  · intro rec' n hmatch hagree
    rw [ocr_captcha_eq rec img, ocr_captcha_eq rec' img,
      firstAccepted_congr rec rec' (ocrPairs img) n hmatch hagree]

/-- Witness for C4 at a concrete recognizer pair: the two recognizers agree
only on the first evaluated pair, and the solver's output coincides. -/
theorem ocr_captcha_c4_witness :
    ocr_captcha wRecB (.src 0) = ocr_captcha wRecA (.src 0) ∧
    ocr_captcha wRecA (.src 0) =
      (firstAccepted wRecA (ocrPairs (.src 0))).getD "" := by
  have h := ocr_captcha_c4 wRecA (.src 0)
  exact ⟨h.2.2.2 wRecB 1 (by decide) (by decide), h.1⟩

/-- C5: `_variants` is a deterministic pure function emitting exactly 207
candidates — for every input the candidate list has length
`207 = 3 × (6 + 3 × 21)`, the scale tags are `2` on the first 69, `3` on
the next 69 and `4` on the last 69 (scales ascending), and the binarization
thresholds occur, per scale and per contrast block, ascending from 60 to
195 with each threshold emitted twice (normal then polarity-inverted).
All three equations hold definitionally for an arbitrary symbolic input
image, which is the purity/determinism content: the shape of the output
depends only on the input term. -/
theorem variants_c5 (img : PImg) :
    (_variants img).length = 207 ∧
    (_variants img).map variantScale =
      List.replicate 69 2 ++ List.replicate 69 3 ++ List.replicate 69 4 ∧
    (_variants img).filterMap variantThreshold =
      (List.replicate 9
        ([60, 75, 90, 105, 120, 135, 150, 165, 180, 195].flatMap
          (fun t => [t, t]))).flatten :=
  ⟨rfl, rfl, rfl⟩

/-- C6: `_clean_text` returns exactly the subsequence of `[0-9A-Za-z]`
characters of its input in original order (it is an alphanumeric sublist
containing every alphanumeric sublist), and a normalized string is accepted
as a captcha code iff its length is exactly 4. -/
theorem clean_text_c6 (s : String) :
    (List.Sublist (_clean_text s).data s.data) ∧
    (∀ ch ∈ (_clean_text s).data, ch.isAlphanum) ∧
    (∀ l : List Char, List.Sublist l s.data → (∀ ch ∈ l, ch.isAlphanum) →
      List.Sublist l (_clean_text s).data) ∧
    (∀ code, acceptClean s = some code ↔
      (code = _clean_text s ∧ code.length = 4)) ∧
    ((_clean_text s).length ≠ 4 → acceptClean s = none) := by
  refine ⟨List.filter_sublist _, clean_text_all_alnum s, ?_, ?_, ?_⟩
  · intro l hl hall
    have hf := hl.filter (fun c => c.isAlphanum)
    rwa [List.filter_eq_self.mpr hall] at hf
  · intro code
    constructor
    · exact acceptClean_some
    · rintro ⟨rfl, hlen⟩
      simp [acceptClean, hlen]
  · intro hlen
    simp [acceptClean, hlen]

/-- One not-ready poll advances the loop by one step. -/
theorem pollLoopF_skip (polls : Nat → TwoCaptchaResp) (timeout k fuel : Nat)
    (hk : 5 * k < timeout) (hs : (polls k).status ≠ 1)
    (hr : (polls k).request = "CAPCHA_NOT_READY") :
    pollLoopF polls timeout k (fuel + 1) = pollLoopF polls timeout (k + 1) fuel := by
  simp only [pollLoopF]
  rw [if_pos hk, if_neg hs, if_neg (by simp [hr])]

/-- If the first `k` polls are all "not ready", the loop reaches the k-th
poll with the clock at `5 * k`, provided that is still under the timeout. -/
theorem pollLoop_reach (polls : Nat → TwoCaptchaResp) (timeout : Nat) :
    ∀ k, 5 * k < timeout →
      (∀ j, j < k → (polls j).status ≠ 1 ∧ (polls j).request = "CAPCHA_NOT_READY") →
      pollLoop polls timeout = pollLoopF polls timeout k (timeout - k) := by
  intro k
  induction k with
  | zero =>
    intro _ _
    simp [pollLoop]
  | succ m ih =>
    intro hk hbefore
    have hm : 5 * m < timeout := by omega
    rw [ih hm (fun j hj => hbefore j (by omega))]
    have hfuel : timeout - m = (timeout - (m + 1)) + 1 := by omega
    rw [hfuel]
    exact pollLoopF_skip polls timeout m _ hm
      (hbefore m (by omega)).1 (hbefore m (by omega)).2

/-- If every poll inside the clock is "not ready", the loop times out. -/
theorem pollLoopF_allnotready (polls : Nat → TwoCaptchaResp) (timeout : Nat)
    (hall : ∀ j, 5 * j < timeout →
      (polls j).status ≠ 1 ∧ (polls j).request = "CAPCHA_NOT_READY") :
    ∀ fuel k, pollLoopF polls timeout k fuel = .error "2Captcha timeout" := by
  intro fuel
  induction fuel with
  | zero => intro k; rfl
  | succ m ih =>
    intro k
    by_cases hk : 5 * k < timeout
    · rw [pollLoopF_skip polls timeout k m hk (hall k hk).1 (hall k hk).2]
      exact ih (k + 1)
    · simp only [pollLoopF]
      rw [if_neg hk]

/-- C7: `solve_captcha_2captcha` submits the base64 encoding of the raw
(unprocessed) challenge image, then polls every 5 time units with a total
timeout of 120.  If the first `k` polls are "not ready", the k-th poll is
reached (so "not ready" means keep polling); there, a success status yields
the normalized text under the 4-character rule (`""` when normalization
fails, never the unnormalized text), any other non-success status raises
the hard `2Captcha error`, and exhausting the clock on "not ready" polls
raises the timeout error. -/
theorem solve2captcha_c7 (apiKey : String) (b64 : PImg → String) (img : PImg)
    (upload : TwoCaptchaResp) (polls : Nat → TwoCaptchaResp) (k : Nat)
    (hkey : apiKey ≠ "") (hup : upload.status = 1)
    (hk : 5 * k < twoCaptchaTimeout)
    (hbefore : ∀ j, j < k →
      (polls j).status ≠ 1 ∧ (polls j).request = "CAPCHA_NOT_READY") :
    (solve_captcha_2captcha apiKey b64 img upload polls
        twoCaptchaTimeout).uploadedBody = some (b64 img) ∧
    ((polls k).status = 1 →
      (solve_captcha_2captcha apiKey b64 img upload polls
          twoCaptchaTimeout).result =
        .ok (if (_clean_text (polls k).request).length = 4
             then _clean_text (polls k).request else "")) ∧
    ((polls k).status ≠ 1 → (polls k).request ≠ "CAPCHA_NOT_READY" →
      (solve_captcha_2captcha apiKey b64 img upload polls
          twoCaptchaTimeout).result = .error "2Captcha error") ∧
    ((∀ j, 5 * j < twoCaptchaTimeout →
        (polls j).status ≠ 1 ∧ (polls j).request = "CAPCHA_NOT_READY") →
      (solve_captcha_2captcha apiKey b64 img upload polls
          twoCaptchaTimeout).result = .error "2Captcha timeout") := by
  have hrun : solve_captcha_2captcha apiKey b64 img upload polls
      twoCaptchaTimeout = ⟨some (b64 img), pollLoop polls twoCaptchaTimeout⟩ := by
    unfold solve_captcha_2captcha
    rw [if_neg hkey, if_neg (by simp [hup])]
  have hfuel : ∃ m, twoCaptchaTimeout - k = m + 1 := ⟨twoCaptchaTimeout - k - 1, by
    have : k ≤ 5 * k := Nat.le_mul_of_pos_left k (by omega)
    omega⟩
  obtain ⟨m, hm⟩ := hfuel
  refine ⟨by rw [hrun], ?_, ?_, ?_⟩
  · intro hstat
    rw [hrun]
    show pollLoop polls twoCaptchaTimeout = _
    rw [pollLoop_reach polls twoCaptchaTimeout k hk hbefore, hm]
    simp only [pollLoopF]
    rw [if_pos hk, if_pos hstat]
    by_cases hlen : (_clean_text (polls k).request).length = 4
    · simp [acceptClean, hlen]
    · simp [acceptClean, hlen]
  · intro hstat hreq
    rw [hrun]
    show pollLoop polls twoCaptchaTimeout = _
    rw [pollLoop_reach polls twoCaptchaTimeout k hk hbefore, hm]
    simp only [pollLoopF]
    rw [if_pos hk, if_neg hstat, if_pos hreq]
  · intro hall
    rw [hrun]
    show pollLoop polls twoCaptchaTimeout = _
    unfold pollLoop
    exact pollLoopF_allnotready polls twoCaptchaTimeout hall _ 0

/-- Witness for C7: with two not-ready polls then a success, the adapter
returns the normalized code and submitted the raw image's encoding. -/
theorem solve2captcha_c7_witness :
    (solve_captcha_2captcha "key" (fun _ => "B64") (.src 0) ⟨1, "job"⟩
        wPolls twoCaptchaTimeout).uploadedBody = some "B64" ∧
    (solve_captcha_2captcha "key" (fun _ => "B64") (.src 0) ⟨1, "job"⟩
        wPolls twoCaptchaTimeout).result = .ok "By34" := by
  have h := solve2captcha_c7 "key" (fun _ => "B64") (.src 0) ⟨1, "job"⟩
    wPolls 2 (by decide) (by decide) (by decide)
    (by intro j hj
        have hj2 : j = 0 ∨ j = 1 := by omega
        rcases hj2 with rfl | rfl <;> exact ⟨by decide, rfl⟩)
  refine ⟨h.1, ?_⟩
  have h2 := h.2.1 (by decide)
  rw [h2]
  have hby : (if (_clean_text (wPolls 2).request).length = 4
      then _clean_text (wPolls 2).request else "") = "By34" := by decide
  rw [hby]

/-- The login-page loader only issues login-page GETs. -/
theorem get_login_page_posts (e : AttemptEnv) :
    countPosts (get_login_page e).1 = 0 := by
  unfold get_login_page
  split
  · split
    · rfl
    · split <;> rfl
  · split
    · rfl
    · split
      · rfl
      · split <;> rfl

/-- With a healthy first response carrying the token marker, the loader
returns after one GET. -/
theorem get_login_page_good (e : AttemptEnv) (h1 : e.page1.exc = false)
    (ht : strContains tokenMarker e.page1.text = true) :
    get_login_page e = ([.getLogin 0], .ok e.page1.text) := by
  unfold get_login_page
  rw [if_neg (by simp [h1]), if_pos ht]

/-- With `USE_2CAPTCHA = False` and `CAPTCHA_MANUAL = False`, the captcha
resolution step always ends in `continue` (main.py:294), whatever the OCR
produced. -/
theorem resolveCaptcha_local_auto (cfg : Config) (e : AttemptEnv)
    (h2c : cfg.use2captcha = false) (hman : cfg.captchaManual = false) :
    resolveCaptcha cfg e = none := by
  simp [resolveCaptcha, h2c, hman]

/-- In the local automatic configuration an attempt that reaches the OCR
step issues exactly a login-page GET and a captcha GET, then retries. -/
theorem runAttempt_local_skip (cfg : Config) (e : AttemptEnv)
    (h2c : cfg.use2captcha = false) (hman : cfg.captchaManual = false)
    (hp1 : e.page1.exc = false)
    (ht : strContains tokenMarker e.page1.text = true)
    (hform : ∃ fd, e.formParse = .ok fd)
    (htok : ∃ tk, e.tokenParse = .ok tk)
    (hcap : e.captchaExc = false) :
    runAttempt cfg e = ([.getLogin 0, .getCaptcha], .retry) := by
  obtain ⟨fd, hfd⟩ := hform
  obtain ⟨tk, htk⟩ := htok
  simp only [runAttempt, get_login_page_good e hp1 ht, hfd, htk, hcap,
    resolveCaptcha_local_auto cfg e h2c hman]
  rfl

/-- An attempt that reaches submission: the trace is the page GET, captcha
GET and credential POST, followed by the interpretation requests, the meter
requests, and — unless meter selection failed — the dashboard GET, with
success exactly when the marker is present. -/
theorem runAttempt_submit (cfg : Config) (e : AttemptEnv) (code : String)
    (hp1 : e.page1.exc = false)
    (ht : strContains tokenMarker e.page1.text = true)
    (hform : ∃ fd, e.formParse = .ok fd)
    (htok : ∃ tk, e.tokenParse = .ok tk)
    (hcap : e.captchaExc = false)
    (hcode : resolveCaptcha cfg e = some code) :
    runAttempt cfg e =
      (if (meterStep cfg e (interpretResult e.postResp).2).2 then
        ([.getLogin 0, .getCaptcha, .postCredentials code]
            ++ (interpretResult e.postResp).1
            ++ (meterStep cfg e (interpretResult e.postResp).2).1
            ++ [.getDashboard],
         if strContains "card_1" e.dashText then .success e.dashText
         else .retry)
      else
        ([.getLogin 0, .getCaptcha, .postCredentials code]
            ++ (interpretResult e.postResp).1
            ++ (meterStep cfg e (interpretResult e.postResp).2).1,
         .retry)) := by
  obtain ⟨fd, hfd⟩ := hform
  obtain ⟨tk, htk⟩ := htok
  simp only [runAttempt, get_login_page_good e hp1 ht, hfd, htk, hcap,
    hcode]
  cases hm : (meterStep cfg e (interpretResult e.postResp).2).2 with
  | false => simp [hm]
  | true =>
    simp only [hm, Bool.not_true, if_pos]
    cases hdash : strContains "card_1" e.dashText <;> simp [hdash]

/-- A retrying attempt hands the run over to the next attempt. -/
theorem loginLoop_retry_step (cfg : Config) (envs : Nat → AttemptEnv)
    (a r : Nat) (h : (runAttempt cfg (envs a)).2 = .retry) :
    (loginLoop cfg envs a (r + 1)).2 = (loginLoop cfg envs (a + 1) r).2 := by
  rcases hra : runAttempt cfg (envs a) with ⟨reqs, step⟩
  rw [hra] at h
  subst h
  simp [loginLoop, hra]

/-- If no attempt can succeed, the loop's result is never `ok`. -/
theorem loginLoop_no_success (cfg : Config) (envs : Nat → AttemptEnv)
    (hstep : ∀ n d, (runAttempt cfg (envs n)).2 ≠ .success d) :
    ∀ r a d, (loginLoop cfg envs a r).2 ≠ .ok d := by
  intro r
  induction r with
  | zero => intro a d h; exact absurd h (by simp [loginLoop])
  | succ m ih =>
    intro a d h
    rcases hra : runAttempt cfg (envs a) with ⟨reqs, step⟩
    cases step with
    | success dd => exact hstep a dd (by rw [hra])
    | retry =>
      rw [show (loginLoop cfg envs a (m + 1)).2 =
        (loginLoop cfg envs (a + 1) m).2 from
          loginLoop_retry_step cfg envs a m (by rw [hra])] at h
      exact ih (a + 1) d h
    | raised exc => simp [loginLoop, hra] at h

/-- If no attempt sends a credential POST, the whole run sends none. -/
theorem loginLoop_no_posts (cfg : Config) (envs : Nat → AttemptEnv)
    (hstep : ∀ n, countPosts (runAttempt cfg (envs n)).1 = 0) :
    ∀ r a, countPosts (loginLoop cfg envs a r).1 = 0 := by
  intro r
  induction r with
  | zero => intro a; rfl
  | succ m ih =>
    intro a
    rcases hra : runAttempt cfg (envs a) with ⟨reqs, step⟩
    have hz : countPosts reqs = 0 := by
      have := hstep a; rw [hra] at this; exact this
    cases step with
    | success dd => simp [loginLoop, hra, hz]
    | retry => simp [loginLoop, hra, countPosts_append, hz, ih (a + 1)]
    | raised exc => simp [loginLoop, hra, hz]

/-- C3: with `USE_2CAPTCHA = False` and `CAPTCHA_MANUAL = False`, every
attempt-loop iteration runs the unconditional `continue` after the OCR step
(main.py:294), so no credential POST is ever sent — even when `ocr_captcha`
returns a valid 4-character code — no attempt can succeed, and the run can
only terminate by raising (its result is never `ok`, whatever the
environments provide). -/
theorem local_auto_c3 (cfg : Config) (envs : Nat → AttemptEnv)
    (h2c : cfg.use2captcha = false) (hman : cfg.captchaManual = false) :
    (∀ e : AttemptEnv, countPosts (runAttempt cfg e).1 = 0 ∧
      ∀ d, (runAttempt cfg e).2 ≠ .success d) ∧
    countPosts (login_and_get_dashboard cfg envs).1 = 0 ∧
    (∀ d, (login_and_get_dashboard cfg envs).2 ≠ .ok d) := by
  have hattempt : ∀ e : AttemptEnv, countPosts (runAttempt cfg e).1 = 0 ∧
      ∀ d, (runAttempt cfg e).2 ≠ .success d := by
    intro e
    have hrc := resolveCaptcha_local_auto cfg e h2c hman
    rcases hpg : get_login_page e with ⟨reqs0, pg⟩
    have hz : countPosts reqs0 = 0 := by
      have := get_login_page_posts e; rw [hpg] at this; exact this
    cases pg with
    | error exc =>
      constructor
      · simp [runAttempt, hpg, hz]
      · intro d; simp [runAttempt, hpg]
    | ok html =>
      cases hfp : e.formParse with
      | error msg =>
        constructor
        · simp [runAttempt, hpg, hfp, hz]
        · intro d; simp [runAttempt, hpg, hfp]
      | ok fd =>
        cases htp : e.tokenParse with
        | error msg =>
          constructor
          · simp [runAttempt, hpg, hfp, htp, hz]
          · intro d; simp [runAttempt, hpg, hfp, htp]
        | ok tk =>
          cases hce : e.captchaExc with
          | true =>
            constructor
            · simp [runAttempt, hpg, hfp, htp, hce, countPosts_append, hz]
              rfl
            · intro d; simp [runAttempt, hpg, hfp, htp, hce]
          | false =>
            constructor
            · simp [runAttempt, hpg, hfp, htp, hce, hrc,
                countPosts_append, hz]
              rfl
            · intro d; simp [runAttempt, hpg, hfp, htp, hce, hrc]
  refine ⟨hattempt, ?_, ?_⟩
  · unfold login_and_get_dashboard
    split
    · rfl
    · exact loginLoop_no_posts cfg envs (fun n => (hattempt (envs n)).1)
        cfg.maxAttempts 1
  · intro d
    unfold login_and_get_dashboard
    split
    · simp
    · exact loginLoop_no_success cfg envs
        (fun n dd => (hattempt (envs n)).2 dd) cfg.maxAttempts 1 d

/-- Witness for C3 on the concrete success-scenario stub: even there, no
POST is sent and the run errors out. -/
theorem local_auto_c3_witness :
    countPosts (login_and_get_dashboard cfgLocalAuto (fun _ => envAb12)).1 = 0 ∧
    (login_and_get_dashboard cfgLocalAuto (fun _ => envAb12)).2 ≠
      .ok envAb12.dashText := by
  have h := local_auto_c3 cfgLocalAuto (fun _ => envAb12) rfl rfl
  exact ⟨h.2.1, h.2.2 envAb12.dashText⟩

/-- C2 (amended to the local-only configuration): when manual entry is
disabled and remote solving is off, an attempt whose solver output is not a
4-character code sends no credential POST and advances to the next attempt.
(In the remote-with-local-fallback configuration the claim fails: see the
counterexample, where the POST is sent with the empty code.) -/
theorem no_post_unsolved_c2 (cfg : Config) (envs : Nat → AttemptEnv)
    (a r : Nat)
    (h2c : cfg.use2captcha = false) (hman : cfg.captchaManual = false)
    (hp1 : (envs a).page1.exc = false)
    (ht : strContains tokenMarker (envs a).page1.text = true)
    (hform : ∃ fd, (envs a).formParse = .ok fd)
    (htok : ∃ tk, (envs a).tokenParse = .ok tk)
    (hcap : (envs a).captchaExc = false)
    (hlen : (ocr_captcha (envs a).recognize (envs a).captchaImg).length ≠ 4) :
    countPosts (runAttempt cfg (envs a)).1 = 0 ∧
    (runAttempt cfg (envs a)).2 = .retry ∧
    (loginLoop cfg envs a (r + 1)).2 = (loginLoop cfg envs (a + 1) r).2 := by
  have hskip := runAttempt_local_skip cfg (envs a) h2c hman hp1 ht hform htok hcap
  refine ⟨by rw [hskip]; rfl, by rw [hskip], ?_⟩
  exact loginLoop_retry_step cfg envs a r (by rw [hskip])

/-- C2 counterexample: in the remote-with-local-fallback configuration
(manual entry disabled) the solver result is `""` — not 4 characters — yet
the attempt submits a credential POST carrying the empty code instead of
skipping submission. -/
theorem no_post_unsolved_c2_counterexample :
    cfgRemote.use2captcha = true ∧ cfgRemote.captchaManual = false ∧
    (solve_captcha_2captcha cfgRemote.apiKey envRemoteBad.b64
        envRemoteBad.captchaImg envRemoteBad.upload envRemoteBad.polls
        twoCaptchaTimeout).result = .ok "" ∧
    countPosts (runAttempt cfgRemote envRemoteBad).1 = 1 ∧
    (runAttempt cfgRemote envRemoteBad).1.contains (.postCredentials "") =
      true ∧
    (runAttempt cfgRemote envRemoteBad).2 = .retry :=
  ⟨rfl, rfl, rfl, rfl, rfl, rfl⟩

/-- C1 (code evaluation at the failing input): in the local-only
configuration all hypotheses of the spec's first-attempt success scenario
hold — the login page yields a valid form and token on the first request,
the stub recognizer resolves the captcha to `"Ab12"`, the prepared server
response is JSON status `true` with no redirect URL, and the dashboard
contains the success marker — yet the attempt sends no credential POST
(the unconditional `continue` of main.py:294 fires first) and the run
terminates with the exhausted-attempts error instead of returning the
dashboard HTML on attempt 1. -/
theorem scenario_success_c1_eval :
    ocr_captcha envAb12.recognize envAb12.captchaImg = "Ab12" ∧
    envAb12.page1.exc = false ∧
    strContains tokenMarker envAb12.page1.text = true ∧
    envAb12.postResp = ⟨200, true, some ⟨some true, none, false, none⟩⟩ ∧
    strContains "card_1" envAb12.dashText = true ∧
    cfgLocalAuto.use2captcha = false ∧ cfgLocalAuto.captchaManual = false ∧
    runAttempt cfgLocalAuto envAb12 = ([.getLogin 0, .getCaptcha], .retry) ∧
    countPosts (login_and_get_dashboard cfgLocalAuto (fun _ => envAb12)).1
      = 0 ∧
    (login_and_get_dashboard cfgLocalAuto (fun _ => envAb12)).2 =
      .error (.loginErr "Login failed after multiple attempts") :=
  ⟨rfl, rfl, rfl, rfl, rfl, rfl, rfl, rfl, rfl, rfl⟩

/-- C8: every attempt that completes submission and is not aborted by the
meter-selection step fetches the dashboard — whatever the credential-POST
response was, JSON or not, status true or false — and the attempt succeeds
(returning the dashboard body) exactly when the `card_1` marker is present
in it; absent the marker the attempt retries even if the JSON status flag
was `true`. -/
theorem verify_dashboard_c8 (cfg : Config) (e : AttemptEnv)
    (hp1 : e.page1.exc = false)
    (ht : strContains tokenMarker e.page1.text = true)
    (hform : ∃ fd, e.formParse = .ok fd)
    (htok : ∃ tk, e.tokenParse = .ok tk)
    (hcap : e.captchaExc = false)
    (hcode : ∃ code, resolveCaptcha cfg e = some code)
    (hmeter : (meterStep cfg e (interpretResult e.postResp).2).2 = true) :
    (Req.getDashboard ∈ (runAttempt cfg e).1) ∧
    ((runAttempt cfg e).2 = .success e.dashText ↔
      strContains "card_1" e.dashText = true) ∧
    (∀ d, (runAttempt cfg e).2 = .success d → d = e.dashText) ∧
    (strContains "card_1" e.dashText = false →
      (runAttempt cfg e).2 = .retry) := by
  obtain ⟨code, hc⟩ := hcode
  have hrun := runAttempt_submit cfg e code hp1 ht hform htok hcap hc
  rw [if_pos hmeter] at hrun
  cases hdash : strContains "card_1" e.dashText with
  | true =>
    rw [hdash] at hrun
    rw [hrun]
    refine ⟨by simp, by simp [if_pos], ?_, by simp⟩
    intro d hd
    simpa using hd.symm
  | false =>
    rw [hdash] at hrun
    rw [hrun]
    refine ⟨by simp, by simp, ?_, by simp⟩
    intro d hd
    simp at hd

/-- Witness for C8 on the remote-configuration success stub. -/
theorem verify_dashboard_c8_witness :
    Req.getDashboard ∈ (runAttempt cfgRemote envAb12).1 ∧
    (runAttempt cfgRemote envAb12).2 = .success envAb12.dashText := by
  have h := verify_dashboard_c8 cfgRemote envAb12 rfl rfl
    ⟨stubForm, rfl⟩ ⟨"tok", rfl⟩ rfl ⟨"Ab12", rfl⟩ rfl
  exact ⟨h.1, h.2.1.mpr rfl⟩

/-- C9: with a well-formed meter-list response, `select_meter_no` succeeds
— issuing the list POST, then the meter-switch POST followed by the GET on
the same endpoint — exactly when the configured meter number (as a
normalized string) appears among the account's meters; otherwise it raises
the meter-not-found `LoginError`, which the attempt loop treats as
attempt-level: the attempt retries and the run continues with the next
attempt instead of ending. -/
theorem select_meter_c9 (cfg : Config) (envs : Nat → AttemptEnv)
    (a r : Nat) (meter_no : String) (env : MeterEnv)
    (hne : meter_no ≠ "") (hstatus : env.listStatus < 400)
    (hok : env.payloadOk = true) :
    (meter_no ∈ env.items.filterMap id →
      select_meter_no meter_no env =
        ([.postMeterList, .postMeterSwitch, .getMeterSwitch], .ok ())) ∧
    (meter_no ∉ env.items.filterMap id →
      select_meter_no meter_no env =
        ([.postMeterList],
         .error ("MeterNo " ++ meter_no ++ " not found in account list"))) ∧
    (∀ msg, (select_meter_no cfg.meterNo (envs a).meterEnv).2 = .error msg →
      cfg.meterNo ≠ "" → (interpretResult (envs a).postResp).2 = true →
      (envs a).page1.exc = false →
      strContains tokenMarker (envs a).page1.text = true →
      (∃ fd, (envs a).formParse = .ok fd) →
      (∃ tk, (envs a).tokenParse = .ok tk) →
      (envs a).captchaExc = false →
      (∃ code, resolveCaptcha cfg (envs a) = some code) →
      (runAttempt cfg (envs a)).2 = .retry ∧
      (loginLoop cfg envs a (r + 1)).2 = (loginLoop cfg envs (a + 1) r).2) := by
  refine ⟨?_, ?_, ?_⟩
  · intro hmem
    unfold select_meter_no
    rw [if_neg hne, if_neg (by omega), if_neg (by simp [hok]),
      if_neg (by simp [hmem])]
  · intro hmem
    unfold select_meter_no
    rw [if_neg hne, if_neg (by omega), if_neg (by simp [hok]),
      if_pos hmem]
  · intro msg hsel hcnne hlok hp1 ht hform htok hcap hcode
    obtain ⟨code, hc⟩ := hcode
    have hmet : (meterStep cfg (envs a) (interpretResult (envs a).postResp).2).2
        = false := by
      unfold meterStep
      rw [if_pos (by simp [hlok, hcnne])]
      rcases hsm : select_meter_no cfg.meterNo (envs a).meterEnv with ⟨rs, res⟩
      rw [hsm] at hsel
      cases res with
      | ok u => simp at hsel
      | error m => rfl
    have hrun := runAttempt_submit cfg (envs a) code hp1 ht hform htok hcap hc
    rw [if_neg (by simp [hmet])] at hrun
    refine ⟨by rw [hrun], ?_⟩
    exact loginLoop_retry_step cfg envs a r (by rw [hrun])

/-- Witness for C9: meter "02" is found (POST, POST, GET issued); meter
"03" raises the not-found error. -/
theorem select_meter_c9_witness :
    select_meter_no "02" wMeterEnv =
      ([.postMeterList, .postMeterSwitch, .getMeterSwitch], .ok ()) ∧
    select_meter_no "03" wMeterEnv =
      ([.postMeterList],
       .error ("MeterNo " ++ "03" ++ " not found in account list")) := by
  have h2 := select_meter_c9 cfgRemote (fun _ => envAb12) 1 1 "02" wMeterEnv
    (by decide) (by decide) rfl
  have h3 := select_meter_c9 cfgRemote (fun _ => envAb12) 1 1 "03" wMeterEnv
    (by decide) (by decide) rfl
  exact ⟨h2.1 (by decide), h3.2.1 (by decide)⟩

/-- C10: the attempt loop is bounded by the configured maximum and
exhausting it raises the descriptive exhausted-attempts error: with the
recognizer always returning empty, manual entry disabled, remote solving
off and a maximum of 3 attempts, the run makes exactly 3 login-page
fetches, zero credential POSTs, and fails with
`"Login failed after multiple attempts"`. -/
theorem exhausted_attempts_c10 (cfg : Config) (envs : Nat → AttemptEnv)
    (h2c : cfg.use2captcha = false) (hman : cfg.captchaManual = false)
    (hmax : cfg.maxAttempts = 3)
    (huser : cfg.username ≠ "") (hpass : cfg.password ≠ "")
    (hocr : ∀ n v c, (envs n).recognize v c = "")
    (hgood : ∀ n, (envs n).page1.exc = false ∧
      strContains tokenMarker (envs n).page1.text = true ∧
      (∃ fd, (envs n).formParse = .ok fd) ∧
      (∃ tk, (envs n).tokenParse = .ok tk) ∧
      (envs n).captchaExc = false) :
    countLoginGets (login_and_get_dashboard cfg envs).1 = 3 ∧
    countPosts (login_and_get_dashboard cfg envs).1 = 0 ∧
    (login_and_get_dashboard cfg envs).2 =
      .error (.loginErr "Login failed after multiple attempts") := by
  have hskip : ∀ n, runAttempt cfg (envs n) =
      ([.getLogin 0, .getCaptcha], .retry) := by
    intro n
    obtain ⟨hp1, ht, hform, htok, hcap⟩ := hgood n
    exact runAttempt_local_skip cfg (envs n) h2c hman hp1 ht hform htok hcap
  have hrun : login_and_get_dashboard cfg envs = loginLoop cfg envs 1 3 := by
    unfold login_and_get_dashboard
    rw [if_neg (by push_neg; exact ⟨huser, hpass⟩), hmax]
  rw [hrun]
  simp [loginLoop, hskip, countLoginGets, countPosts]

/-- Witness for C10 at the concrete always-empty-recognizer stub. -/
theorem exhausted_attempts_c10_witness :
    countLoginGets
      (login_and_get_dashboard cfgLocalAuto (fun _ => envOcrEmpty)).1 = 3 ∧
    countPosts
      (login_and_get_dashboard cfgLocalAuto (fun _ => envOcrEmpty)).1 = 0 ∧
    (login_and_get_dashboard cfgLocalAuto (fun _ => envOcrEmpty)).2 =
      .error (.loginErr "Login failed after multiple attempts") :=
  exhausted_attempts_c10 cfgLocalAuto (fun _ => envOcrEmpty) rfl rfl rfl
    (by decide) (by decide) (fun _ _ _ => rfl)
    (fun _ => ⟨rfl, rfl, ⟨stubForm, rfl⟩, ⟨"tok", rfl⟩, rfl⟩)

/-- Witness for C2 at a concrete unsolvable-captcha attempt. -/
theorem no_post_unsolved_c2_witness :
    countPosts (runAttempt cfgLocalAuto envOcrEmpty).1 = 0 ∧
    (runAttempt cfgLocalAuto envOcrEmpty).2 = .retry := by
  have h := no_post_unsolved_c2 cfgLocalAuto (fun _ => envOcrEmpty) 1 1
    rfl rfl rfl rfl ⟨stubForm, rfl⟩ ⟨"tok", rfl⟩ rfl (by decide)
  exact ⟨h.1, h.2.1⟩

/-- Witness for C6: on `"!A b1_2?"` (four alphanumerics among noise) the
normalizer returns exactly `"Ab12"` and the acceptance check passes. -/
theorem clean_text_c6_witness :
    acceptClean "!A b1_2?" = some "Ab12" ∧
    (List.Sublist "Ab12".data "!A b1_2?".data) := by
  refine ⟨((clean_text_c6 "!A b1_2?").2.2.2.1 "Ab12").mpr
    ⟨by decide, by decide⟩, ?_⟩
  have h := (clean_text_c6 "!A b1_2?").1
  have he : _clean_text "!A b1_2?" = "Ab12" := by decide
  rwa [he] at h
